import Mathlib

/-!
Verification development for the bounded prefetch cache of the PSeInt quiz
application (`src/app.py`).

The embedding models the Python program shallowly:

* Python values that flow through the cache path are modelled by `PyVal`
  (None, strings, ints, booleans, lists, and dicts as association lists;
  `json.loads` produces its keys already deduplicated, last occurrence
  winning, which `pyGet` reproduces by searching the reversed list).
* `queue.Queue(maxsize=40)` serialises every `put`/`get` behind an internal
  mutex, so any concurrent history of operations is a linearisation, i.e.
  a sequence of the atomic steps `QOp`; its state is the list of queued
  items, FIFO order.
* `generar_pregunta` is modelled as a function of the external API outcome
  (`ApiResult`): the `client.models.generate_content` call either raises or
  yields a response text whose markdown-stripped `json.loads` outcome is an
  exception or a parsed `PyVal`.  Exceptions are `Except.error`.
* One iteration of the infinite loop of `precargar_preguntas` is the
  function `precargar_preguntas_iter`; the body's `try`/`except` is made
  explicit by `precargar_preguntas_try` (`Except`-valued) plus the handler.
* `obtener_pregunta_cache` is modelled for one call whose `get(timeout=10)`
  observes the queue contents `cache` for the duration of the call (nothing
  is enqueued concurrently); `elapsed` is the number of seconds the call is
  blocked before returning: `0` on an immediate hit, the full `10`-second
  timeout when the queue stays empty and `queue.Empty` is raised.
-/

/-- Cache capacity: `CACHE_SIZE = 40` in `app.py`. -/
def CACHE_SIZE : Nat := 40

/-- Low watermark for replenishment: `CACHE_MIN = 10` in `app.py`. -/
def CACHE_MIN : Nat := 10

/-- Timeout of `pregunta_cache.get(timeout=10)`, in seconds. -/
def FETCH_TIMEOUT : Nat := 10

/-- Sleep of `time.sleep(2)` in the worker loop, in seconds. -/
def POLL_INTERVAL : Nat := 2

/-- A Python value as used on the cache path: None, str, int, bool, list,
or dict (association list of string keys). -/
inductive PyVal where
  | none : PyVal
  | str (s : String) : PyVal
  | int (n : Int) : PyVal
  | bool (b : Bool) : PyVal
  | list (l : List PyVal) : PyVal
  | dict (d : List (String × PyVal)) : PyVal

/-- Python's `str.split(",")`, character-level helper. -/
def splitCommaAux : List Char → List Char → List (List Char)
  | [], acc => [acc.reverse]
  | c :: cs, acc =>
    if c = ',' then acc.reverse :: splitCommaAux cs []
    else splitCommaAux cs (c :: acc)

/-- Python's `s.split(",")`: split on every comma, keeping empty parts. -/
def pySplit (s : String) : List String :=
  (splitCommaAux s.toList []).map fun cs => String.mk cs

/-- ASCII whitespace stripped by Python's `str.strip()`. -/
def pyIsSpace (c : Char) : Bool :=
  c = ' ' || c = '\t' || c = '\n' || c = '\r' || c = '\x0b' || c = '\x0c'

/-- Python's `s.strip()`: drop leading and trailing whitespace. -/
def pyStrip (s : String) : String :=
  String.mk (((s.toList.dropWhile pyIsSpace).reverse.dropWhile pyIsSpace).reverse)

/-- Python's `d.get(k, dflt)` on a dict given as an association list; the
last binding of a key wins, as in a Python dict built by `json.loads`. -/
def pyGet (d : List (String × PyVal)) (k : String) (dflt : PyVal) : PyVal :=
  match d.reverse.find? (fun kv => kv.fst == k) with
  | some kv => kv.snd
  | Option.none => dflt

/-- Python's `k in d` on a dict: key membership. -/
def pyHasKey (d : List (String × PyVal)) (k : String) : Bool :=
  d.any fun kv => kv.fst == k

/-- Field access `p[k]` restricted to dicts, `None` otherwise; used only to
state theorems about the dicts built by `generar_pregunta`. -/
def getField (p : PyVal) (k : String) : PyVal :=
  match p with
  | .dict d => pyGet d k .none
  | _ => .none

/-- Whether a `PyVal` is a Python `str` (`isinstance(v, str)`). -/
def PyVal.isStr : PyVal → Bool
  | .str _ => true
  | _ => false

/-- Whether a `PyVal` is a Python `list` (`isinstance(v, list)`). -/
def PyVal.isList : PyVal → Bool
  | .list _ => true
  | _ => false

/-- The `Respuestas` handling of `generar_pregunta` (app.py lines 110-114):
a string is split on commas with each part stripped, a list is used as is,
anything else (absent field gives `None`) becomes the empty list. -/
def decodeRespuestas : PyVal → PyVal
  | .str s => .list ((pySplit s).map fun r => .str (pyStrip r))
  | .list l => .list l
  | _ => .list []

/-- The dict literal built by `generar_pregunta` (app.py lines 115-121)
from the parsed JSON object `d`. -/
def buildPregunta (d : List (String × PyVal)) : PyVal :=
  .dict [("pregunta", pyGet d "Pregunta" .none),
         ("codigo", pyGet d "Codigo" .none),
         ("respuestas", decodeRespuestas (pyGet d "Respuestas" .none)),
         ("respuesta_correcta", pyGet d "Respuesta correcta" .none),
         ("explicacion", pyGet d "Explicacion" (.str ""))]

/-- The error dict returned by `generar_pregunta` when extracting the JSON
fails (app.py line 125). -/
def errorDict (detalle : String) (texto : String) : PyVal :=
  .dict [("error", .str "No se pudo extraer el JSON"),
         ("detalle", .str detalle),
         ("texto", .str texto)]

/-- Whether a value is the error dict shape (has an `error` key). -/
def isErrorDict : PyVal → Bool
  | .dict d => pyHasKey d "error"
  | _ => false

/-- Outcome of the external Gemini call as `generar_pregunta` sees it:
either `client.models.generate_content` raised, or it returned a response
whose stripped text `texto` was given to `json.loads` with outcome
`parsed` (an exception message, or the parsed Python value). -/
inductive ApiResult where
  | raised (e : String) : ApiResult
  | ok (texto : String) (parsed : Except String PyVal) : ApiResult

/-- `generar_pregunta()` (app.py lines 90-125) as a function of the API
outcome.  The `generate_content` call is outside the `try`, so its
exception propagates (`Except.error`).  Inside the `try`, a `json.loads`
failure — or `.get` raising `AttributeError` because the parsed JSON is
not a dict — is caught and turned into the error dict; a parsed dict is
turned into the pregunta dict. -/
def generar_pregunta : ApiResult → Except String PyVal
  | .raised e => .error e
  | .ok texto (.error detalle) => .ok (errorDict detalle texto)
  | .ok _ (.ok (.dict d)) => .ok (buildPregunta d)
  | .ok texto (.ok _) => .ok (errorDict "AttributeError" texto)

/-- The worker's validation check (app.py line 77):
`isinstance(pregunta, dict) and 'pregunta' in pregunta and 'codigo' in
pregunta`. -/
def es_valida : PyVal → Bool
  | .dict d => pyHasKey d "pregunta" && pyHasKey d "codigo"
  | _ => false

/-- `pregunta_cache.put(pregunta)` on `queue.Queue(maxsize=CACHE_SIZE)`:
appends when the queue is below capacity; `Option.none` models the caller
blocking on a full queue (the default `put` blocks, it does not fail). -/
def queue_put (q : List PyVal) (p : PyVal) : Option (List PyVal) :=
  if q.length < CACHE_SIZE then some (q ++ [p]) else Option.none

/-- Result of one iteration of the worker loop: the queue afterwards, how
many times `generar_pregunta` was invoked, how many seconds were slept,
and whether the iteration is blocked inside `put` on a full queue. -/
structure IterResult where
  cache : List PyVal
  genCalls : Nat
  slept : Nat
  blockedPut : Bool

/-- The `try` block of the worker body (app.py lines 74-78), before the
`except` handler: call the generator (its exception propagates as
`Except.error`), validate, `put` when valid. -/
def precargar_preguntas_try (cache : List PyVal) (api : ApiResult) :
    Except String IterResult :=
  match generar_pregunta api with
  | .error e => .error e
  | .ok p =>
    if es_valida p then
      match queue_put cache p with
      | some c => .ok ⟨c, 1, 0, false⟩
      | Option.none => .ok ⟨cache, 1, 0, true⟩
    else .ok ⟨cache, 1, 0, false⟩

/-- One iteration of `precargar_preguntas` (app.py lines 72-82): below the
watermark, run the `try` block with `except Exception: pass`; at or above
it, sleep `POLL_INTERVAL` seconds without calling the generator. -/
def precargar_preguntas_iter (cache : List PyVal) (api : ApiResult) :
    IterResult :=
  if cache.length < CACHE_MIN then
    match precargar_preguntas_try cache api with
    | .error _ => ⟨cache, 1, 0, false⟩
    | .ok r => r
  else ⟨cache, 0, POLL_INTERVAL, false⟩

/-- Outcome of one `obtener_pregunta_cache()` call: the value returned to
the caller (or the exception that escapes it), the queue afterwards, how
many times `generar_pregunta` was invoked, and how many seconds the call
was blocked before returning. -/
structure FetchOutcome where
  result : Except String PyVal
  cache : List PyVal
  genCalls : Nat
  elapsed : Nat

/-- `obtener_pregunta_cache()` (app.py lines 127-135) for one call during
which nothing is enqueued concurrently: `get(timeout=10)` pops the head
immediately when the queue is non-empty; on an empty queue it blocks the
full `FETCH_TIMEOUT`, `queue.Empty` is caught, and `generar_pregunta()`'s
outcome — returned value or raised exception — goes to the caller
unchanged, with nothing inserted into the queue. -/
def obtener_pregunta_cache (cache : List PyVal) (api : ApiResult) :
    FetchOutcome :=
  match cache with
  | p :: rest => ⟨.ok p, rest, 0, 0⟩
  | [] => ⟨generar_pregunta api, [], 1, FETCH_TIMEOUT⟩

/-- One atomic operation of `queue.Queue` as used by the program: a `put`
that completes (enabled only below capacity — a `put` on a full queue
stays blocked and is not an operation that completes), or a `get` that
pops the head of a non-empty queue.  The queue's internal mutex makes
every concurrent history a sequence of these steps. -/
inductive QOp : List PyVal → List PyVal → Prop where
  | enqueue (q : List PyVal) (p : PyVal) (h : q.length < CACHE_SIZE) :
      QOp q (q ++ [p])
  | dequeue (p : PyVal) (q : List PyVal) : QOp (p :: q) q

/-- Reachability by a finite sequence of completed queue operations. -/
inductive QReach : List PyVal → List PyVal → Prop where
  | refl (q : List PyVal) : QReach q q
  | step (q₁ q₂ q₃ : List PyVal) : QReach q₁ q₂ → QOp q₂ q₃ → QReach q₁ q₃

/-- State of the consumer system: the queue plus the list of items already
handed to `Fetch` callers, in the order they were dequeued. -/
structure ConsState where
  queue : List PyVal
  returned : List PyVal

/-- One atomic `get` performed by some `Fetch` caller: the head moves from
the queue to the returned list.  The queue mutex serialises concurrent
`Fetch` calls into a sequence of these steps. -/
inductive FetchOp : ConsState → ConsState → Prop where
  | get (p : PyVal) (q r : List PyVal) :
      FetchOp ⟨p :: q, r⟩ ⟨q, r ++ [p]⟩

/-- Reachability by a finite interleaving of `Fetch` dequeues. -/
inductive FetchReach : ConsState → ConsState → Prop where
  | refl (s : ConsState) : FetchReach s s
  | step (s₁ s₂ s₃ : ConsState) : FetchReach s₁ s₂ → FetchOp s₂ s₃ →
      FetchReach s₁ s₃

/-- Every dict built by `generar_pregunta` from parsed JSON passes the
worker's validation: the literal always contains the keys `pregunta` and
`codigo`, whatever the raw JSON held. -/
theorem es_valida_buildPregunta (d : List (String × PyVal)) :
    es_valida (buildPregunta d) = true := rfl

example : pySplit "a, b" = ["a", " b"] := by decide
example : (pySplit "a, b").map pyStrip = ["a", "b"] := by decide
example : pyStrip "  x y " = "x y" := rfl

/-- The error dict never passes the worker's validation: it has keys
`error`, `detalle`, `texto` but neither `pregunta` nor `codigo`. -/
theorem es_valida_errorDict (detalle texto : String) :
    es_valida (errorDict detalle texto) = false := rfl

/-- A `put` below capacity completes and appends. -/
theorem queue_put_below (q : List PyVal) (p : PyVal)
    (h : q.length < CACHE_SIZE) : queue_put q p = some (q ++ [p]) := by
  unfold queue_put
  rw [if_pos h]

/-- Below the watermark, a successfully parsed dict response is always
enqueued by the worker iteration: it passes `es_valida`, and the `put`
completes because the watermark is below capacity. -/
theorem precargar_ok_dict (cache : List PyVal) (texto : String)
    (d : List (String × PyVal)) (h : cache.length < CACHE_MIN) :
    precargar_preguntas_iter cache (ApiResult.ok texto (.ok (.dict d))) =
      ⟨cache ++ [buildPregunta d], 1, 0, false⟩ := by
  have hcap : cache.length < CACHE_SIZE := by
    unfold CACHE_MIN at h
    unfold CACHE_SIZE
    omega
  simp [precargar_preguntas_iter, precargar_preguntas_try, generar_pregunta, h,
        es_valida_buildPregunta, queue_put_below cache (buildPregunta d) hcap]

/-- Transport of multisets along any interleaving of `Fetch` dequeues: the
queue contents together with the returned items stay a permutation of
what they were at the start. -/
theorem fetchReach_perm (s₀ s₁ : ConsState) (h : FetchReach s₀ s₁) :
    (s₁.queue ++ s₁.returned).Perm (s₀.queue ++ s₀.returned) := by
  induction h with
  | refl => exact List.Perm.refl _
  | step s₂ s₃ _ hop ih =>
    refine List.Perm.trans ?_ ih
    cases hop with
    | get p q r =>
      have hp : ((q ++ r) ++ [p]).Perm (p :: (q ++ r)) :=
        List.perm_append_singleton p (q ++ r)
      simpa [List.append_assoc] using hp

/-- C1: every sequence of completed enqueue/dequeue operations of the
queue — every linearisation of concurrent `put`/`get` calls, the queue's
mutex serialising them — keeps the size between `0` and the capacity
`CACHE_SIZE = 40` fixed at construction; in particular no sequence of
enqueues pushes the size above the capacity. -/
theorem C1_capacity_invariant (q q' : List PyVal)
    (hq : q.length ≤ CACHE_SIZE) (hreach : QReach q q') :
    0 ≤ q'.length ∧ q'.length ≤ CACHE_SIZE := by
  refine ⟨Nat.zero_le _, ?_⟩
  induction hreach with
  | refl => exact hq
  | step q₂ q₃ _ hop ih =>
    cases hop with
    | enqueue p h => simp only [List.length_append, List.length_singleton]; omega
    | dequeue p q => simp only [List.length_cons] at ih; omega

/-- Witness for C1 at a concrete history: one enqueue from the empty
queue. -/
theorem C1_capacity_invariant_witness :
    0 ≤ ([PyVal.none] : List PyVal).length ∧
      ([PyVal.none] : List PyVal).length ≤ CACHE_SIZE :=
  C1_capacity_invariant [] [PyVal.none] (by decide)
    (QReach.step [] [] [PyVal.none] (QReach.refl [])
      (QOp.enqueue [] PyVal.none (by decide)))

/-- C2: under any interleaving of concurrent `Fetch` dequeues starting
from a queue holding `init` and nothing returned yet, the queue plus the
returned items remain a permutation of `init` (no loss, no duplication);
if the seeded items are pairwise distinct the returned ones are pairwise
distinct, and once the queue is drained the returned items are exactly
the seeded ones, each delivered once. -/
theorem C2_exactly_once (init : List PyVal) (s' : ConsState)
    (h : FetchReach ⟨init, []⟩ s') :
    (s'.queue ++ s'.returned).Perm init ∧
    (init.Nodup → s'.returned.Nodup) ∧
    (s'.queue = [] → s'.returned.Perm init) := by
  have hp := fetchReach_perm ⟨init, []⟩ s' h
  simp only [List.append_nil] at hp
  refine ⟨hp, fun hnd => ?_, fun hq => ?_⟩
  · exact List.Nodup.of_append_right (hp.nodup_iff.mpr hnd)
  · simpa [hq] using hp

/-- Witness for C2: two distinct items, drained by two dequeues; each is
returned exactly once. -/
theorem C2_exactly_once_witness :
    (([] : List PyVal) ++ [PyVal.int 1, PyVal.str "b"]).Perm
        [PyVal.int 1, PyVal.str "b"] ∧
    ([PyVal.int 1, PyVal.str "b"] : List PyVal).Nodup ∧
    ([PyVal.int 1, PyVal.str "b"] : List PyVal).Perm
        [PyVal.int 1, PyVal.str "b"] := by
  have h := C2_exactly_once [PyVal.int 1, PyVal.str "b"]
    ⟨[], [PyVal.int 1, PyVal.str "b"]⟩
    (FetchReach.step _ _ _
      (FetchReach.step _ _ _ (FetchReach.refl _)
        (FetchOp.get (PyVal.int 1) [PyVal.str "b"] []))
      (FetchOp.get (PyVal.str "b") [] [PyVal.int 1]))
  exact ⟨h.1, h.2.1 (by simp), h.2.2 rfl⟩

/-- C3: a `Fetch` against an empty queue with nothing enqueued during the
wait blocks for the full `FETCH_TIMEOUT = 10` seconds, then invokes the
generator exactly once on the calling path and hands its outcome —
returned value or raised exception — directly to the caller; the queue
stays empty, the fallback result is never inserted into it. -/
theorem C3_timeout_fallback (api : ApiResult) :
    obtener_pregunta_cache [] api =
      ⟨generar_pregunta api, [], 1, FETCH_TIMEOUT⟩ := rfl

/-- C4: a `Fetch` that finds the queue non-empty returns its head
immediately — zero seconds blocked, zero generator invocations. -/
theorem C4_immediate_path (cache : List PyVal) (api : ApiResult)
    (p : PyVal) (rest : List PyVal) (h : cache = p :: rest) :
    obtener_pregunta_cache cache api = ⟨.ok p, rest, 0, 0⟩ := by
  subst h
  rfl

/-- Witness for C4: a one-item queue, generator down, item served. -/
theorem C4_immediate_path_witness :
    obtener_pregunta_cache [PyVal.str "x"] (ApiResult.raised "down") =
      ⟨.ok (PyVal.str "x"), [], 0, 0⟩ :=
  C4_immediate_path [PyVal.str "x"] (ApiResult.raised "down")
    (PyVal.str "x") [] rfl

/-- A raw generator response that parses to a JSON object but has no
`Respuesta correcta` field: question, code and answers are present. -/
def c5raw : List (String × PyVal) :=
  [("Pregunta", PyVal.str "Que salida produce el codigo?"),
   ("Codigo", PyVal.str "Escribir 1"),
   ("Respuestas", PyVal.list [PyVal.str "1", PyVal.str "2"])]

/-- C5 counterexample: a raw result missing the correct-answer field is
accepted by the worker's validation and IS enqueued — the code only
checks `isinstance(dict)` and the presence of the keys `pregunta` and
`codigo`, which the dict built by `generar_pregunta` always has. -/
theorem C5_validation_gate_counterexample :
    pyGet c5raw "Respuesta correcta" PyVal.none = PyVal.none ∧
    es_valida (buildPregunta c5raw) = true ∧
    (precargar_preguntas_iter []
        (ApiResult.ok "t" (.ok (.dict c5raw)))).cache =
      [buildPregunta c5raw] :=
  ⟨rfl, rfl, rfl⟩

/-- C5 amended: the validation before caching accepts a result iff it is
a dict containing the keys `pregunta` and `codigo` — true of every dict
built from a successfully parsed response, whatever fields the raw JSON
is missing — so below the watermark every parsed response is enqueued,
correct answer or not, while a JSON-extraction failure produces the error
dict, fails validation and is never enqueued. -/
theorem C5_validation_gate_amended (d : List (String × PyVal))
    (cache : List PyVal) (texto detalle : String)
    (h : cache.length < CACHE_MIN) :
    es_valida (buildPregunta d) = true ∧
    precargar_preguntas_iter cache (ApiResult.ok texto (.ok (.dict d))) =
      ⟨cache ++ [buildPregunta d], 1, 0, false⟩ ∧
    es_valida (errorDict detalle texto) = false ∧
    precargar_preguntas_iter cache (ApiResult.ok texto (.error detalle)) =
      ⟨cache, 1, 0, false⟩ := by
  refine ⟨es_valida_buildPregunta d, precargar_ok_dict cache texto d h,
    es_valida_errorDict detalle texto, ?_⟩
  simp [precargar_preguntas_iter, precargar_preguntas_try, generar_pregunta,
        es_valida_errorDict, h]

/-- Witness for C5's amended statement at a concrete state: the response
missing its correct answer is cached from the empty queue. -/
theorem C5_validation_gate_amended_witness :
    precargar_preguntas_iter [] (ApiResult.ok "t" (.ok (.dict c5raw))) =
      ⟨[buildPregunta c5raw], 1, 0, false⟩ :=
  (C5_validation_gate_amended c5raw [] "t" "d" (by decide)).2.1

/-- C6 counterexample: on a full queue the worker's enqueue does not
complete — `queue.Queue.put` with default arguments blocks instead of
returning a boolean, so "never blocks" fails at a full cache. -/
theorem C6_enqueue_counterexample :
    (queue_put (List.replicate CACHE_SIZE PyVal.none) PyVal.none).isSome =
      false := rfl

/-- C6 amended: the enqueue inserts iff the size is strictly below the
capacity, but it reports nothing and blocks the caller on a full queue;
at any size below the watermark — the only states in which the worker
calls it — it completes and appends. -/
theorem C6_enqueue_amended (q : List PyVal) (p : PyVal) :
    ((queue_put q p).isSome ↔ q.length < CACHE_SIZE) ∧
    (q.length < CACHE_MIN → queue_put q p = some (q ++ [p])) := by
  constructor
  · unfold queue_put
    split <;> simp_all
  · intro h
    refine queue_put_below q p ?_
    unfold CACHE_MIN at h
    unfold CACHE_SIZE
    omega

/-- Witness for C6's amended statement: a `put` on the empty queue
completes and appends. -/
theorem C6_enqueue_amended_witness :
    queue_put [] PyVal.none = some [PyVal.none] :=
  (C6_enqueue_amended [] PyVal.none).2 (by decide)

/-- C7: when the worker iterates below the watermark and the generation
attempt fails — the API call raises, or the produced value fails the
validation (error dict, non-dict JSON) — the failure is swallowed: the
iteration returns normally (nothing propagates, the loop survives), the
queue is untouched, and zero seconds are slept before the next watermark
check. -/
theorem C7_worker_swallows (cache : List PyVal) (api : ApiResult)
    (hlow : cache.length < CACHE_MIN)
    (hfail : ∀ p, generar_pregunta api = Except.ok p → es_valida p = false) :
    precargar_preguntas_iter cache api = ⟨cache, 1, 0, false⟩ := by
  unfold precargar_preguntas_iter
  rw [if_pos hlow]
  unfold precargar_preguntas_try
  cases hgen : generar_pregunta api with
  | error e => rfl
  | ok p => simp [hfail p hgen]

/-- Witness for C7: a raised API call below the watermark leaves the
empty queue empty with no sleep. -/
theorem C7_worker_swallows_witness :
    precargar_preguntas_iter [] (ApiResult.raised "boom") =
      ⟨[], 1, 0, false⟩ :=
  C7_worker_swallows [] (ApiResult.raised "boom") (by decide)
    (fun p h => Except.noConfusion h)

/-- C8: on the fallback path of a `Fetch` against the empty queue, a
transport failure of the generator propagates to the caller as the raised
exception, while a JSON-extraction failure is returned to the caller as
the error dict; the error dict carries the `error` key and passes no
validation, and the two failure outcomes are distinct values. -/
theorem C8_fallback_propagates (e texto detalle : String) :
    (obtener_pregunta_cache [] (ApiResult.raised e)).result =
      Except.error e ∧
    (obtener_pregunta_cache [] (ApiResult.ok texto (.error detalle))).result =
      Except.ok (errorDict detalle texto) ∧
    isErrorDict (errorDict detalle texto) = true ∧
    es_valida (errorDict detalle texto) = false ∧
    Except.error e ≠ (Except.ok (errorDict detalle texto) :
      Except String PyVal) :=
  ⟨rfl, rfl, rfl, rfl, fun h => Except.noConfusion h⟩

/-- C9: the worker iteration invokes the generator exactly once when the
observed size is strictly below the watermark `CACHE_MIN = 10` and not at
all otherwise; at or above the watermark it only sleeps `POLL_INTERVAL =
2` seconds, leaving the queue untouched. -/
theorem C9_watermark (cache : List PyVal) (api : ApiResult) :
    (CACHE_MIN ≤ cache.length →
      precargar_preguntas_iter cache api =
        ⟨cache, 0, POLL_INTERVAL, false⟩) ∧
    (precargar_preguntas_iter cache api).genCalls =
      (if cache.length < CACHE_MIN then 1 else 0) := by
  constructor
  · intro h
    unfold precargar_preguntas_iter
    rw [if_neg (by omega)]
  · by_cases h : cache.length < CACHE_MIN
    · rw [if_pos h]
      unfold precargar_preguntas_iter
      rw [if_pos h]
      unfold precargar_preguntas_try
      cases hgen : generar_pregunta api with
      | error e => rfl
      | ok p =>
        by_cases hv : es_valida p = true
        · cases hput : queue_put cache p with
          | none => simp [hv, hput]
          | some c => simp [hv, hput]
        · simp [hv]
    · rw [if_neg h]
      unfold precargar_preguntas_iter
      rw [if_neg h]

/-- Witness for C9: at exactly the watermark the worker sleeps and the
generator is not called. -/
theorem C9_watermark_witness :
    precargar_preguntas_iter (List.replicate CACHE_MIN PyVal.none)
        (ApiResult.raised "x") =
      ⟨List.replicate CACHE_MIN PyVal.none, 0, POLL_INTERVAL, false⟩ :=
  (C9_watermark (List.replicate CACHE_MIN PyVal.none)
    (ApiResult.raised "x")).1 (by decide)

/-- C10: in the built pregunta dict, a string `Respuestas` field becomes
the list of its comma-separated parts each stripped of whitespace; a
field that is neither a list nor a string becomes the empty list; and any
such dict — empty answer list included — passes the worker's validation
and, below the watermark, is enqueued. -/
theorem C10_respuestas_decoding (d : List (String × PyVal))
    (texto s : String) (cache : List PyVal) :
    (pyGet d "Respuestas" PyVal.none = PyVal.str s →
      getField (buildPregunta d) "respuestas" =
        PyVal.list ((pySplit s).map fun r => PyVal.str (pyStrip r))) ∧
    ((pyGet d "Respuestas" PyVal.none).isStr = false →
     (pyGet d "Respuestas" PyVal.none).isList = false →
      getField (buildPregunta d) "respuestas" = PyVal.list []) ∧
    es_valida (buildPregunta d) = true ∧
    (cache.length < CACHE_MIN →
      (precargar_preguntas_iter cache
          (ApiResult.ok texto (.ok (.dict d)))).cache =
        cache ++ [buildPregunta d]) := by
  have hg : getField (buildPregunta d) "respuestas" =
      decodeRespuestas (pyGet d "Respuestas" PyVal.none) := rfl
  refine ⟨fun h => ?_, fun h1 h2 => ?_, es_valida_buildPregunta d,
    fun h => ?_⟩
  · rw [hg, h]
    rfl
  · rw [hg]
    cases hv : pyGet d "Respuestas" PyVal.none with
    | str s' => simp [hv, PyVal.isStr] at h1
    | list l => simp [hv, PyVal.isList] at h2
    | none => rfl
    | int n => rfl
    | bool b => rfl
    | dict d' => rfl
  · rw [precargar_ok_dict cache texto d h]

/-- A raw JSON object whose `Respuestas` field is the string "a, b". -/
def c10d : List (String × PyVal) := [("Respuestas", PyVal.str "a, b")]

/-- A raw JSON object whose `Respuestas` field is a number. -/
def c10n : List (String × PyVal) := [("Respuestas", PyVal.int 3)]

/-- Witness for C10: the string field "a, b" is decoded to the two
stripped options; a numeric field yields the empty answer list and the
item is still enqueued from the empty queue. -/
theorem C10_respuestas_decoding_witness :
    getField (buildPregunta c10d) "respuestas" =
      PyVal.list [PyVal.str "a", PyVal.str "b"] ∧
    getField (buildPregunta c10n) "respuestas" = PyVal.list [] ∧
    (precargar_preguntas_iter []
        (ApiResult.ok "" (.ok (.dict c10n)))).cache =
      [buildPregunta c10n] :=
  ⟨(C10_respuestas_decoding c10d "" "a, b" []).1 rfl,
   (C10_respuestas_decoding c10n "" "" []).2.1 rfl rfl,
   (C10_respuestas_decoding c10n "" "" []).2.2.2 (by decide)⟩
